import Mathlib

/-!
# Verification of the learn-bank-app credit and ledger core

A shallow embedding, in Lean 4, of the credit-lifecycle and money-movement
code of the `vterdunov/learn-bank-app` repository, together with theorems
settling the specification claims about that code.

Conventions of the embedding:
* Monetary amounts (Go `float64`, stored as SQL numerics) are modelled as
  exact rationals `ℚ`; Go's `math.Round(x*100)/100` two-decimal rounding is
  modelled exactly by `round2` (round half away from zero).
* Go `int` identifiers and counters that the code keeps non-negative are
  modelled as `ℕ`.
* Database tables become functions `ℕ → Option row`; a SQL `UPDATE ... WHERE
  id = $1` that matches no row is a no-op (0 rows affected), exactly as in
  the source.
* Fallible persistence calls are given explicit failure-injection booleans
  (`failX = true` means the corresponding repository call returns an error);
  the success path is the one with all flags `false`.
* Timestamps are opaque `ℕ` instants; `NOW()` becomes an explicit `now`
  parameter.
-/

namespace BankApp

/-- Go's `math.Round`: round to the nearest integer, halves away from zero. -/
def mathRound (x : ℚ) : ℚ :=
  if 0 ≤ x then (⌊x + 1/2⌋ : ℤ) else (⌈x - 1/2⌉ : ℤ)

/-- `math.Round(x*100)/100`, the two-decimal rounding used throughout the
repository's money arithmetic. -/
def round2 (x : ℚ) : ℚ :=
  mathRound (x * 100) / 100

/-- An amount is a whole number of cents. -/
def IsCents (x : ℚ) : Prop := ∃ k : ℤ, x = (k : ℚ) / 100

theorem mathRound_intCast (k : ℤ) : mathRound (k : ℚ) = (k : ℚ) := by
  unfold mathRound
  rcases le_or_lt 0 (k : ℚ) with h | h
  · rw [if_pos h, show (k : ℚ) + 1/2 = 1/2 + (k : ℤ) by ring,
      Int.floor_add_int]
    norm_num
  · rw [if_neg (not_le.mpr h), show (k : ℚ) - 1/2 = -(1/2) + (k : ℤ) by ring,
      Int.ceil_add_int]
    norm_num

theorem round2_isCents (x : ℚ) : IsCents (round2 x) := by
  unfold round2 mathRound
  rcases le_or_lt 0 (x * 100) with h | h
  · exact ⟨⌊x * 100 + 1/2⌋, by rw [if_pos h]⟩
  · exact ⟨⌈x * 100 - 1/2⌉, by rw [if_neg (not_le.mpr h)]⟩

theorem round2_cents {x : ℚ} (h : IsCents x) : round2 x = x := by
  obtain ⟨k, rfl⟩ := h
  unfold round2
  rw [show (k : ℚ) / 100 * 100 = (k : ℚ) by field_simp]
  rw [mathRound_intCast]

theorem IsCents.sub {x y : ℚ} (hx : IsCents x) (hy : IsCents y) :
    IsCents (x - y) := by
  obtain ⟨k, rfl⟩ := hx
  obtain ⟨l, rfl⟩ := hy
  exact ⟨k - l, by push_cast; ring⟩

/-! ## Domain: credits (internal/domain/credit.go) -/

/-- Credit statuses (`CreditStatus` constants). -/
def CreditStatusActive : String := "active"
def CreditStatusPaidOff : String := "paid_off"

/-- The money- and schedule-relevant fields of `domain.Credit`. -/
structure Credit where
  id : ℕ
  accountID : ℕ
  amount : ℚ
  interestRate : ℚ
  termMonths : ℕ
  monthlyPayment : ℚ
  remainingDebt : ℚ
  status : String
  deriving Repr, DecidableEq

/-- `CalculateAnnuityPayment(principal, rate, months)`. -/
def CalculateAnnuityPayment (principal rate : ℚ) (months : ℕ) : ℚ :=
  if principal ≤ 0 ∨ rate < 0 ∨ months = 0 then 0
  else
    let monthlyRate := rate / 100 / 12
    if monthlyRate = 0 then principal / months
    else
      let numerator := monthlyRate * (1 + monthlyRate) ^ months
      let denominator := (1 + monthlyRate) ^ months - 1
      mathRound (principal * (numerator / denominator) * 100) / 100

/-- `(*Credit).CalculatePaymentBreakdown(paymentNumber, remainingPrincipal)`:
the (principal, interest) split of one annuity payment, with the
final-payment correction. -/
def CalculatePaymentBreakdown (c : Credit) (paymentNumber : ℕ)
    (remainingPrincipal : ℚ) : ℚ × ℚ :=
  let monthlyRate := c.interestRate / 100 / 12
  let interestAmount := remainingPrincipal * monthlyRate
  let principalAmount := c.monthlyPayment - interestAmount
  if paymentNumber = c.termMonths then
    (round2 remainingPrincipal, round2 (c.monthlyPayment - remainingPrincipal))
  else
    (round2 principalAmount, round2 interestAmount)

/-- `(*Credit).UpdateRemainingDebt(paidPrincipal)`: subtract the paid
principal and clamp at zero, switching the status to `paid_off` when the
debt reaches (or crosses) zero. -/
def UpdateRemainingDebt (c : Credit) (paidPrincipal : ℚ) : Credit :=
  let debt := c.remainingDebt - paidPrincipal
  if debt ≤ 0 then
    { c with remainingDebt := 0, status := CreditStatusPaidOff }
  else
    { c with remainingDebt := debt }

/-! ## Domain: payment schedule entries (internal/domain/payment_schedule.go) -/

/-- Payment statuses (`PaymentStatus` constants). -/
def PaymentStatusPending : String := "pending"
def PaymentStatusPaid : String := "paid"
def PaymentStatusOverdue : String := "overdue"

/-- The money- and status-relevant fields of `domain.PaymentSchedule`.
`dueDate` counts months after the credit's creation instant; `paidDate`
models the `*time.Time` pointer (present iff non-nil). -/
structure PaymentSchedule where
  creditID : ℕ
  paymentNumber : ℕ
  dueDate : ℕ
  paymentAmount : ℚ
  principalAmount : ℚ
  interestAmount : ℚ
  penaltyAmount : ℚ
  remainingBalance : ℚ
  status : String
  paidDate : Option ℕ
  deriving Repr, DecidableEq

/-! ## Schedule generation (internal/service/credit_service.go,
`createPaymentSchedule`) -/

/-- The month counters `m, m+1, ..., m+k-1` visited by the Go loop
`for month := m; month <= m+k-1; month++`. -/
def monthsFrom (m : ℕ) : ℕ → List ℕ
  | 0 => []
  | k + 1 => m :: monthsFrom (m + 1) k

/-- The loop body of `createPaymentSchedule`, iterating the given month
counters and threading `remainingPrincipal` exactly as the source does. -/
def schedLoop (c : Credit) :
    List ℕ → ℚ → List PaymentSchedule
  | [], _ => []
  | month :: rest, remainingPrincipal =>
    let pi := CalculatePaymentBreakdown c month remainingPrincipal
    { creditID := c.id
      paymentNumber := month
      dueDate := month
      paymentAmount := c.monthlyPayment
      principalAmount := pi.1
      interestAmount := pi.2
      penaltyAmount := 0
      remainingBalance := round2 (remainingPrincipal - pi.1)
      status := PaymentStatusPending
      paidDate := none } :: schedLoop c rest (remainingPrincipal - pi.1)

/-- `createPaymentSchedule`: the batch of schedule rows generated for a
credit, months `1 .. termMonths`, starting from the full principal. -/
def createPaymentSchedule (c : Credit) : List PaymentSchedule :=
  schedLoop c (monthsFrom 1 c.termMonths) c.amount

theorem round2_zero : round2 0 = 0 := round2_cents ⟨0, by norm_num⟩

/-- Expanding one iteration of the schedule loop. -/
theorem schedLoop_cons (c : Credit) (month : ℕ) (rest : List ℕ) (r : ℚ) :
    schedLoop c (month :: rest) r =
      { creditID := c.id
        paymentNumber := month
        dueDate := month
        paymentAmount := c.monthlyPayment
        principalAmount := (CalculatePaymentBreakdown c month r).1
        interestAmount := (CalculatePaymentBreakdown c month r).2
        penaltyAmount := 0
        remainingBalance := round2 (r - (CalculatePaymentBreakdown c month r).1)
        status := PaymentStatusPending
        paidDate := none } ::
        schedLoop c rest (r - (CalculatePaymentBreakdown c month r).1) := rfl

/-- Every principal portion produced by `CalculatePaymentBreakdown` is a
whole number of cents. -/
theorem breakdown_fst_isCents (c : Credit) (n : ℕ) (r : ℚ) :
    IsCents (CalculatePaymentBreakdown c n r).1 := by
  unfold CalculatePaymentBreakdown
  split <;> exact round2_isCents _

/-- Main loop invariant for `createPaymentSchedule`: over the month window
`m .. m+j` ending exactly at the term (`m + (j+1) = termMonths + 1`), if the
threaded remaining principal is a whole number of cents then the generated
principal portions sum to it exactly and the last generated row records a
remaining balance of exactly `0`. -/
theorem schedLoop_sum (c : Credit) :
    ∀ (j m : ℕ) (r : ℚ), m + (j + 1) = c.termMonths + 1 → IsCents r →
      ((schedLoop c (monthsFrom m (j + 1)) r).map (·.principalAmount)).sum = r ∧
      ((schedLoop c (monthsFrom m (j + 1)) r).getLast?.map (·.remainingBalance))
        = some 0 := by
  intro j
  induction j with
  | zero =>
    intro m r hm hr
    have hmt : m = c.termMonths := by omega
    have hbd : CalculatePaymentBreakdown c m r
        = (round2 r, round2 (c.monthlyPayment - r)) := by
      unfold CalculatePaymentBreakdown
      rw [if_pos hmt]
    simp only [monthsFrom, schedLoop_cons, schedLoop, hbd, round2_cents hr]
    constructor
    · simp
    · simp [sub_self, round2_zero]
  | succ j ih =>
    intro m r hm hr
    have hp1 : IsCents (CalculatePaymentBreakdown c m r).1 :=
      breakdown_fst_isCents c m r
    have hr' : IsCents (r - (CalculatePaymentBreakdown c m r).1) := hr.sub hp1
    have ihm := ih (m + 1) (r - (CalculatePaymentBreakdown c m r).1)
      (by omega) hr'
    have hexp : monthsFrom m (j + 1 + 1) = m :: monthsFrom (m + 1) (j + 1) :=
      rfl
    constructor
    · rw [hexp, schedLoop_cons, List.map_cons, List.sum_cons, ihm.1]
      ring
    · rw [hexp, schedLoop_cons]
      have hexp2 : monthsFrom (m + 1) (j + 1) = (m + 1) :: monthsFrom (m + 2) j :=
        rfl
      rw [hexp2, schedLoop_cons, List.getLast?_cons_cons]
      rw [hexp2, schedLoop_cons] at ihm
      exact ihm.2

/-- **C1, amended.** For every credit whose principal is a whole number of
cents and whose term is at least one month (any annual rate and any monthly
payment), the generated payment schedule's principal portions sum exactly
to the original principal, and the final entry's recorded remaining balance
is exactly `0`. -/
theorem C1_schedule_principal_sum (c : Credit) (hcents : IsCents c.amount)
    (hterm : 1 ≤ c.termMonths) :
    ((createPaymentSchedule c).map (·.principalAmount)).sum = c.amount ∧
    ((createPaymentSchedule c).getLast?.map (·.remainingBalance)) = some 0 := by
  unfold createPaymentSchedule
  obtain ⟨j, hj⟩ : ∃ j, c.termMonths = j + 1 := ⟨c.termMonths - 1, by omega⟩
  rw [hj]
  exact schedLoop_sum c j 1 c.amount (by omega) hcents

/-- Witness instantiating `C1_schedule_principal_sum` on a concrete credit
(100000.00 at 31% for 12 months). -/
theorem C1_schedule_principal_sum_witness :
    IsCents (100000 : ℚ) ∧ 1 ≤ (12 : ℕ) ∧
    ((createPaymentSchedule
        { id := 1, accountID := 1, amount := 100000, interestRate := 31,
          termMonths := 12,
          monthlyPayment := CalculateAnnuityPayment 100000 31 12,
          remainingDebt := 100000, status := CreditStatusActive }).map
        (·.principalAmount)).sum = 100000 := by
  refine ⟨⟨10000000, by norm_num⟩, by norm_num, ?_⟩
  exact (C1_schedule_principal_sum _ ⟨10000000, by norm_num⟩ (by norm_num)).1

/-- The concrete credit refuting C1 as literally stated: principal 0.005
(a legal `float64` input accepted by every validation in the source, but
not a whole number of cents), zero rate, one-month term. -/
def c1Counter : Credit :=
  { id := 1, accountID := 1, amount := 1/200, interestRate := 0,
    termMonths := 1, monthlyPayment := CalculateAnnuityPayment (1/200) 0 1,
    remainingDebt := 1/200, status := CreditStatusActive }

/-- **C1, counterexample.** `c1Counter` satisfies every hypothesis of the
claim (principal > 0, rate ≥ 0, term ∈ [1,360], monthly payment as computed
at creation), yet its schedule's principal portions sum to 0.01, not to the
principal 0.005: the claim as stated is false. -/
theorem C1_counterexample :
    0 < c1Counter.amount ∧ 0 ≤ c1Counter.interestRate ∧
    1 ≤ c1Counter.termMonths ∧ c1Counter.termMonths ≤ 360 ∧
    c1Counter.monthlyPayment
      = CalculateAnnuityPayment c1Counter.amount c1Counter.interestRate
          c1Counter.termMonths ∧
    ((createPaymentSchedule c1Counter).map (·.principalAmount)).sum ≠
      c1Counter.amount := by
  refine ⟨by norm_num [c1Counter], by norm_num [c1Counter],
    by norm_num [c1Counter], by norm_num [c1Counter], rfl, ?_⟩
  have h1 : createPaymentSchedule c1Counter
      = schedLoop c1Counter [1] (1/200) := rfl
  rw [h1, schedLoop_cons]
  have hbd : CalculatePaymentBreakdown c1Counter 1 (1/200)
      = (round2 (1/200), round2 (c1Counter.monthlyPayment - 1/200)) := by
    unfold CalculatePaymentBreakdown
    rw [if_pos (show (1:ℕ) = c1Counter.termMonths from rfl)]
  rw [hbd]
  have hrd : round2 (1/200) = 1/100 := by
    unfold round2 mathRound
    norm_num
  simp only [schedLoop, List.map_cons, List.map_nil, List.sum_cons,
    List.sum_nil, hrd]
  norm_num [c1Counter]

/-! ## Domain: accounts and transactions (internal/domain/account.go,
internal/domain/transaction.go) -/

/-- The money-relevant fields of `domain.Account`. -/
structure Account where
  balance : ℚ
  status : String
  deriving Repr, DecidableEq

/-- The audit-trail fields of `domain.Transaction`. -/
structure Transaction where
  fromAccount : Option ℕ
  toAccount : Option ℕ
  amount : ℚ
  type : String
  status : String
  deriving Repr, DecidableEq

/-- The state touched by the account service: the `accounts` table (id ↦
row) and the append-only `transactions` table. -/
structure Bank where
  accounts : ℕ → Option Account
  transactions : List Transaction

/-- `UPDATE accounts SET balance = ... WHERE id = $1`, with the balance
transformed by `f`. Matching no row is a no-op (0 rows affected), exactly
as `Exec` behaves. -/
def updateRow (accounts : ℕ → Option Account) (i : ℕ) (f : ℚ → ℚ) :
    ℕ → Option Account :=
  fun j =>
    if j = i then (accounts i).map fun a => { a with balance := f a.balance }
    else accounts j

/-- Errors surfaced by `AccountRepositoryImpl`. -/
inductive RepoError
  | noRows
  | insufficientFunds
  deriving Repr, DecidableEq

/-- `AccountRepositoryImpl.Transfer` (the transactional transfer): lock and
read the source balance (`SELECT ... FOR UPDATE`; a missing row surfaces
`pgx.ErrNoRows`), reject on insufficient funds, then debit the source and
credit the destination inside the same transaction. The destination row is
never read: a missing destination makes the credit `UPDATE` a silent no-op.
An error return models the rollback (no state change); `.ok` models the
commit. Account status is never consulted. -/
def Transfer (b : Bank) (fromID toID : ℕ) (amount : ℚ) :
    Except RepoError Bank :=
  match b.accounts fromID with
  | none => .error .noRows
  | some fromAcc =>
    if fromAcc.balance < amount then .error .insufficientFunds
    else
      let debited := updateRow b.accounts fromID (· - amount)
      let credited := updateRow debited toID (· + amount)
      .ok { b with accounts := credited }

/-- Errors surfaced by `accountService`. -/
inductive ServiceError
  | invalidAmount
  | accountNotFound
  | accountBlocked
  | insufficientFunds
  | sameAccountTransfer
  | updateBalanceFailed
  | transferFailed (e : RepoError)
  deriving Repr, DecidableEq

/-- `accountService.WithdrawMoney`: amount validation, account fetch,
status check, funds check, absolute balance update, transaction record
(whose creation failure the source ignores). The returned `Bank` is the
state after the call: errors leave it exactly as it was, because every
error return happens before the single balance write. -/
def WithdrawMoney (b : Bank) (accountID : ℕ) (amount : ℚ) :
    Option ServiceError × Bank :=
  if amount ≤ 0 then (some .invalidAmount, b)
  else
    match b.accounts accountID with
    | none => (some .accountNotFound, b)
    | some account =>
      if account.status ≠ "active" then (some .accountBlocked, b)
      else if account.balance < amount then (some .insufficientFunds, b)
      else
        let debited := updateRow b.accounts accountID (fun _ => account.balance - amount)
        let record : Transaction :=
          { fromAccount := some accountID, toAccount := none,
            amount := amount, type := "withdrawal", status := "completed" }
        (none, { b with accounts := debited, transactions := b.transactions ++ [record] })

/-- `accountService.TransferMoney`: amount validation, same-account check,
then the repository transfer, then a transaction record (creation failure
ignored). No account status check of any kind happens on this path. -/
def TransferMoney (b : Bank) (fromAccountID toAccountID : ℕ) (amount : ℚ) :
    Option ServiceError × Bank :=
  if amount ≤ 0 then (some .invalidAmount, b)
  else if fromAccountID = toAccountID then (some .sameAccountTransfer, b)
  else
    match Transfer b fromAccountID toAccountID amount with
    | .error e => (some (.transferFailed e), b)
    | .ok b1 =>
      let record : Transaction :=
        { fromAccount := some fromAccountID, toAccount := some toAccountID,
          amount := amount, type := "transfer", status := "completed" }
      (none, { b1 with transactions := b1.transactions ++ [record] })

/-! ## C2: transfer moves the exact amount and conserves the total -/

/-- **C2.** For distinct existing accounts `x ≠ y` and any amount
`0 < a ≤` source balance, the repository `Transfer` commits: the source is
debited by exactly `a`, the destination credited by exactly `a`, every
other row is untouched, and the two balances' sum is conserved. The
transaction model makes the debit and credit apply together (on `.ok`) or
not at all (on `.error` the state is rolled back). -/
theorem C2_transfer_exact (b : Bank) (x y : ℕ) (accX accY : Account)
    (a : ℚ) (hxy : x ≠ y) (hx : b.accounts x = some accX)
    (hy : b.accounts y = some accY) (ha : 0 < a)
    (hbal : a ≤ accX.balance) :
    ∃ b', Transfer b x y a = .ok b' ∧
      b'.accounts x = some { accX with balance := accX.balance - a } ∧
      b'.accounts y = some { accY with balance := accY.balance + a } ∧
      (∀ z, z ≠ x → z ≠ y → b'.accounts z = b.accounts z) ∧
      (accX.balance - a) + (accY.balance + a) = accX.balance + accY.balance := by
  refine ⟨Bank.mk (updateRow (updateRow b.accounts x (· - a)) y (· + a))
    b.transactions, ?_, ?_, ?_, ?_, by ring⟩
  · simp only [Transfer, hx]
    rw [if_neg (not_lt.mpr hbal)]
  · simp [updateRow, hx, hxy, Ne.symm hxy]
  · simp [updateRow, hy, hxy, Ne.symm hxy]
  · intro z hzx hzy
    simp [updateRow, hzx, hzy]

/-- The two-account bank on which the C2 witness runs. -/
def c2Bank : Bank :=
  { accounts := fun i =>
      if i = 1 then some { balance := 100, status := "active" }
      else if i = 2 then some { balance := 30, status := "active" }
      else none,
    transactions := [] }

/-- Witness for C2 on a concrete two-account bank. -/
theorem C2_transfer_exact_witness :
    (1 : ℕ) ≠ 2 ∧ (0 : ℚ) < 50 ∧ (50 : ℚ) ≤ 100 ∧
    ∃ b', Transfer c2Bank 1 2 50 = .ok b' ∧
      b'.accounts 1 = some { balance := 100 - 50, status := "active" } ∧
      b'.accounts 2 = some { balance := 30 + 50, status := "active" } := by
  refine ⟨by norm_num, by norm_num, by norm_num, ?_⟩
  obtain ⟨b', h1, h2, h3, -, -⟩ :=
    C2_transfer_exact c2Bank 1 2 { balance := 100, status := "active" }
      { balance := 30, status := "active" } 50
      (by norm_num) rfl rfl (by norm_num) (by norm_num)
  exact ⟨b', h1, h2, h3⟩

/-! ## C3: withdrawal beyond the balance -/

/-- **C3, amended.** For every existing *active* account with non-negative
balance and every withdrawal amount strictly greater than that balance,
`WithdrawMoney` fails with the insufficient-funds error and the bank state
is exactly unchanged. -/
theorem C3_withdraw_insufficient_funds (b : Bank) (i : ℕ) (acct : Account)
    (amount : ℚ) (hacc : b.accounts i = some acct)
    (hstatus : acct.status = "active") (hbal : 0 ≤ acct.balance)
    (hgt : acct.balance < amount) :
    WithdrawMoney b i amount = (some .insufficientFunds, b) := by
  have hpos : ¬ amount ≤ 0 := by linarith
  simp only [WithdrawMoney, if_neg hpos, hacc, hstatus]
  simp [hgt]

/-- Witness for C3 on a concrete account (balance 40, withdrawing 41). -/
theorem C3_withdraw_insufficient_funds_witness :
    (Bank.mk (fun i => if i = 7 then some { balance := 40, status := "active" }
      else none) []).accounts 7 = some { balance := 40, status := "active" } ∧
    (0 : ℚ) ≤ 40 ∧ (40 : ℚ) < 41 ∧
    WithdrawMoney (Bank.mk (fun i =>
        if i = 7 then some { balance := 40, status := "active" } else none) [])
      7 41
      = (some .insufficientFunds,
        Bank.mk (fun i => if i = 7 then some { balance := 40, status := "active" }
          else none) []) := by
  refine ⟨rfl, by norm_num, by norm_num, ?_⟩
  exact C3_withdraw_insufficient_funds _ 7 { balance := 40, status := "active" }
    41 rfl rfl (by norm_num) (by norm_num)

/-- The bank refuting C3 as literally stated: account 1 is blocked with
balance 100; account 2 is active with (invalid, but representable)
balance −2. -/
def c3Bank : Bank :=
  { accounts := fun i =>
      if i = 1 then some { balance := 100, status := "blocked" }
      else if i = 2 then some { balance := -2, status := "active" }
      else none,
    transactions := [] }

/-- **C3, counterexample.** Two withdrawals whose amount is strictly
greater than the account's balance yet which do *not* fail with the
insufficient-funds error: on a blocked account the status check fires
first (`accountBlocked`), and on a negative-balance account a negative
amount above the balance trips the amount validation (`invalidAmount`).
The claim's unrestricted "for every account" is therefore false. -/
theorem C3_counterexample :
    (∃ a, c3Bank.accounts 1 = some a ∧ a.balance < 200) ∧
    WithdrawMoney c3Bank 1 200 = (some .accountBlocked, c3Bank) ∧
    (some ServiceError.accountBlocked ≠ some ServiceError.insufficientFunds) ∧
    (∃ a, c3Bank.accounts 2 = some a ∧ a.balance < -1) ∧
    WithdrawMoney c3Bank 2 (-1) = (some .invalidAmount, c3Bank) ∧
    (some ServiceError.invalidAmount ≠ some ServiceError.insufficientFunds) := by
  refine ⟨⟨_, rfl, by norm_num⟩, ?_, by decide, ⟨_, rfl, by norm_num⟩, ?_, by decide⟩
  · have h1 : ¬ (200 : ℚ) ≤ 0 := by norm_num
    simp only [WithdrawMoney, if_neg h1]
    norm_num [c3Bank]
    intro h
    exact absurd h (by decide)
  · have h2 : (-1 : ℚ) ≤ 0 := by norm_num
    simp only [WithdrawMoney, if_pos h2]

/-! ## C6: transfers involving missing or inactive accounts -/

/-- The bank exhibiting the C6 bug: account 1 is blocked (status is not
`active`) with balance 100; account 2 is active with balance 10; account 99
does not exist. -/
def c6Bank : Bank :=
  { accounts := fun i =>
      if i = 1 then some { balance := 100, status := "blocked" }
      else if i = 2 then some { balance := 10, status := "active" }
      else none,
    transactions := [] }

/-- **C6, failing input.** Neither `TransferMoney` nor the repository
`Transfer` ever consults account status, and a missing destination row
makes the credit `UPDATE` a silent no-op. Concretely: transferring 50 from
the *blocked* account 1 succeeds and moves the money (the claim demands an
inactive-account failure with no balance change), and transferring 50 to
the *nonexistent* account 99 also succeeds, debiting the source while
crediting nobody. -/
theorem C6_transfer_ignores_status :
    (TransferMoney c6Bank 1 2 50).1 = none ∧
    ((TransferMoney c6Bank 1 2 50).2.accounts 1).map (·.balance) = some 50 ∧
    ((TransferMoney c6Bank 1 2 50).2.accounts 2).map (·.balance) = some 60 ∧
    (TransferMoney c6Bank 1 99 50).1 = none ∧
    ((TransferMoney c6Bank 1 99 50).2.accounts 1).map (·.balance) = some 50 ∧
    (TransferMoney c6Bank 1 99 50).2.accounts 99 = none := by
  have hne : ¬ (50 : ℚ) ≤ 0 := by norm_num
  have hlt : ¬ (100 : ℚ) < 50 := by norm_num
  have h2 : Transfer c6Bank 1 2 50
      = .ok (Bank.mk (updateRow (updateRow c6Bank.accounts 1 (· - 50)) 2
          (· + 50)) c6Bank.transactions) := by
    simp only [Transfer, c6Bank]
    norm_num
  have h99 : Transfer c6Bank 1 99 50
      = .ok (Bank.mk (updateRow (updateRow c6Bank.accounts 1 (· - 50)) 99
          (· + 50)) c6Bank.transactions) := by
    simp only [Transfer, c6Bank]
    norm_num
  refine ⟨?_, ?_, ?_, ?_, ?_, ?_⟩ <;>
    simp only [TransferMoney, if_neg hne, h2, h99] <;>
    norm_num [updateRow, c6Bank]

/-! ## C9: lock acquisition order inside `Transfer` -/

/-- The SQL statements `AccountRepositoryImpl.Transfer` issues inside its
transaction, in program order. `selectForUpdate` takes an explicit
exclusive row lock; `updateBalance` takes the same exclusive row lock
implicitly when it touches the row. -/
inductive SQLStmt
  | selectForUpdate (accountID : ℕ)
  | updateBalance (accountID : ℕ)
  deriving Repr, DecidableEq

/-- The account row a statement touches (and locks). -/
def SQLStmt.row : SQLStmt → ℕ
  | .selectForUpdate i => i
  | .updateBalance i => i

/-- The statement sequence of `Transfer(fromID, toID, amount)`: lock-read
the source, debit the source, credit the destination. -/
def transferStatements (fromID toID : ℕ) : List SQLStmt :=
  [.selectForUpdate fromID, .updateBalance fromID, .updateBalance toID]

/-- Row-lock acquisitions of a statement sequence, in order of first
acquisition (`acquired` lists the rows already locked). -/
def lockOrder (acquired : List ℕ) : List SQLStmt → List ℕ
  | [] => []
  | stmt :: rest =>
    if stmt.row ∈ acquired then lockOrder acquired rest
    else stmt.row :: lockOrder (stmt.row :: acquired) rest

/-- **C9, amended.** Every `Transfer` acquires its two row locks in
*source-then-destination* order — the only explicit `FOR UPDATE` lock is on
the source row, and the destination row is first locked by its balance
`UPDATE`. No lower-identity-first ordering exists, so two transfers on the
reverse account pair lock the rows in opposite orders. -/
theorem C9_transfer_lock_order (fromID toID : ℕ) (h : fromID ≠ toID) :
    lockOrder [] (transferStatements fromID toID) = [fromID, toID] := by
  simp [transferStatements, lockOrder, SQLStmt.row, Ne.symm h]

/-- Witness instantiating `C9_transfer_lock_order` at the pair (7, 3). -/
theorem C9_transfer_lock_order_witness :
    (7 : ℕ) ≠ 3 ∧ lockOrder [] (transferStatements 7 3) = [7, 3] :=
  ⟨by decide, C9_transfer_lock_order 7 3 (by decide)⟩

/-- **C9, counterexample.** The claim says both locks are taken "lower
identity first", i.e. the acquisition order would be
`[min fromID toID, max fromID toID]` for every pair. For the transfer
`2 → 1` the code's acquisition order is `[2, 1]`, not `[1, 2]`: the claimed
fixed global ordering does not exist. -/
theorem C9_counterexample :
    lockOrder [] (transferStatements 2 1) = [2, 1] ∧
    lockOrder [] (transferStatements 2 1) ≠ [min 2 1, max 2 1] := by
  decide

/-! ## The overdue-payment sweep (SchedulerServiceImpl, wired to the timer
in cmd/app/main.go) -/

/-- The state the scheduler touches: accounts, credits and payment-schedule
rows (each id ↦ row) plus the append-only transactions table. -/
structure SchedState where
  accounts : ℕ → Option Account
  credits : ℕ → Option Credit
  payments : ℕ → Option PaymentSchedule
  transactions : List Transaction

/-- Errors surfaced by the scheduler's settlement helpers. -/
inductive SchedError
  | getCreditFailed
  | getAccountFailed
  | updateBalanceFailed
  | updatePaymentFailed
  | createTransactionFailed
  deriving Repr, DecidableEq

/-- `UPDATE payment_schedules SET ... WHERE id = $1` writing the whole row;
matching no row is a no-op. -/
def setPayment (payments : ℕ → Option PaymentSchedule) (i : ℕ)
    (p : PaymentSchedule) : ℕ → Option PaymentSchedule :=
  fun j => if j = i then (payments i).map (fun _ => p) else payments j

/-- `SchedulerServiceImpl.processPaymentDeduction`: three *separate*
persistence calls with no enclosing transaction — set the new balance, then
rewrite the schedule row as paid (with paid timestamp and the penalty added
to its accumulated penalty), then insert one `credit_payment` transaction.
`failBal`/`failPay`/`failTx` inject a failure of the corresponding call;
the returned state is whatever has been written up to the failing call.
The credit row is never touched. -/
def processPaymentDeduction (st : SchedState) (accountID : ℕ)
    (account : Account) (paymentID : ℕ) (payment : PaymentSchedule)
    (penaltyAmount totalAmount : ℚ) (now : ℕ)
    (failBal failPay failTx : Bool) : Option SchedError × SchedState :=
  let newBalance := account.balance - totalAmount
  if failBal then (some .updateBalanceFailed, st)
  else
    let accounts1 := updateRow st.accounts accountID (fun _ => newBalance)
    let st1 := { st with accounts := accounts1 }
    if failPay then (some .updatePaymentFailed, st1)
    else
      let payment1 : PaymentSchedule :=
        { payment with
            status := PaymentStatusPaid
            paidDate := some now
            penaltyAmount := payment.penaltyAmount + penaltyAmount }
      let st2 := { st1 with payments := setPayment st1.payments paymentID payment1 }
      if failTx then (some .createTransactionFailed, st2)
      else
        let record : Transaction :=
          { fromAccount := some accountID, toAccount := none,
            amount := totalAmount, type := "credit_payment",
            status := "completed" }
        (none, { st2 with transactions := st2.transactions ++ [record] })

/-- `SchedulerServiceImpl.increasePenalty`: rewrite the schedule row with
the additional penalty added to its accumulated penalty; nothing else
changes (in particular the row's status stays what it was). -/
def increasePenalty (st : SchedState) (paymentID : ℕ)
    (payment : PaymentSchedule) (additionalPenalty : ℚ) (failPay : Bool) :
    Option SchedError × SchedState :=
  if failPay then (some .updatePaymentFailed, st)
  else
    let payment1 : PaymentSchedule :=
      { payment with penaltyAmount := payment.penaltyAmount + additionalPenalty }
    (none, { st with payments := setPayment st.payments paymentID payment1 })

/-- `SchedulerServiceImpl.processOverduePayment`: fetch the owning credit
and its funding account, compute the penalty as
`paymentAmount * penaltyRate / 100`, then either settle (balance suffices)
via `processPaymentDeduction` or accrue the penalty via `increasePenalty`.
The trailing notification send touches no persisted state and its failure
is ignored by the source, so it is omitted. -/
def schedulerProcessOverduePayment (penaltyRate : ℚ) (st : SchedState)
    (paymentID : ℕ) (payment : PaymentSchedule) (now : ℕ)
    (failBal failPay failTx : Bool) : Option SchedError × SchedState :=
  match st.credits payment.creditID with
  | none => (some .getCreditFailed, st)
  | some credit =>
    match st.accounts credit.accountID with
    | none => (some .getAccountFailed, st)
    | some account =>
      let penaltyAmount := payment.paymentAmount * penaltyRate / 100
      let totalAmount := payment.paymentAmount + penaltyAmount
      if account.balance ≥ totalAmount then
        processPaymentDeduction st credit.accountID account paymentID payment
          penaltyAmount totalAmount now failBal failPay failTx
      else
        increasePenalty st paymentID payment penaltyAmount failPay

/-- The filter of `PaymentScheduleRepositoryImpl.GetOverduePayments`:
a row is swept when its due date is past, its status is `pending`, and the
owning credit is `active`. -/
def isOverdueEligible (st : SchedState) (now : ℕ) (paymentID : ℕ) : Bool :=
  match st.payments paymentID with
  | none => false
  | some p =>
    decide (p.dueDate < now) && (p.status == PaymentStatusPending) &&
      match st.credits p.creditID with
      | none => false
      | some c => c.status == CreditStatusActive

/-! ## C4: what a successful settlement actually writes -/

/-- The credit of the C4 failing input: remaining debt 1000, active. -/
def c4Credit : Credit :=
  { id := 1, accountID := 1, amount := 6000, interestRate := 21,
    termMonths := 12, monthlyPayment := 500, remainingDebt := 1000,
    status := CreditStatusActive }

/-- The overdue row of the C4 failing input: scheduled payment 500 with
principal portion 400. -/
def c4Payment : PaymentSchedule :=
  { creditID := 1, paymentNumber := 3, dueDate := 3, paymentAmount := 500,
    principalAmount := 400, interestAmount := 100, penaltyAmount := 0,
    remainingBalance := 3000, status := PaymentStatusPending,
    paidDate := none }

/-- The C4 failing state: the funding account holds 2000, amply covering
the payment 500 plus the 10% penalty 50. -/
def c4St : SchedState :=
  { accounts := fun i =>
      if i = 1 then some { balance := 2000, status := "active" } else none,
    credits := fun i => if i = 1 then some c4Credit else none,
    payments := fun i => if i = 5 then some c4Payment else none,
    transactions := [] }

/-- **C4, failing input.** The sweep settles the entry: it debits exactly
the payment plus penalty (2000 − 550 = 1450), marks the row paid with a
paid timestamp and penalty 50, and records exactly one `credit_payment`
transaction — but it leaves the credits table *completely unchanged*: the
remaining debt stays 1000 instead of dropping by the principal portion 400
as the claim requires, so no `paid_off` transition can ever happen on this
path. -/
theorem C4_settlement_leaves_debt_unchanged :
    (schedulerProcessOverduePayment 10 c4St 5 c4Payment 9 false false false).1
      = none ∧
    (schedulerProcessOverduePayment 10 c4St 5 c4Payment 9 false false
        false).2.accounts 1 = some (Account.mk 1450 "active") ∧
    (schedulerProcessOverduePayment 10 c4St 5 c4Payment 9 false false
        false).2.payments 5
      = some (PaymentSchedule.mk 1 3 3 500 400 100 50 3000
          PaymentStatusPaid (some 9)) ∧
    (schedulerProcessOverduePayment 10 c4St 5 c4Payment 9 false false
        false).2.transactions
      = [Transaction.mk (some 1) none 550 "credit_payment" "completed"] ∧
    (schedulerProcessOverduePayment 10 c4St 5 c4Payment 9 false false
        false).2.credits = c4St.credits ∧
    (schedulerProcessOverduePayment 10 c4St 5 c4Payment 9 false false
        false).2.credits 1 = some c4Credit ∧
    c4Credit.remainingDebt = 1000 ∧ (1000 : ℚ) ≠ 1000 - 400 := by
  refine ⟨?_, ?_, ?_, ?_, ?_, ?_, by norm_num [c4Credit], by norm_num⟩ <;>
    norm_num [schedulerProcessOverduePayment, processPaymentDeduction,
      c4St, c4Payment, c4Credit, setPayment, updateRow]

/-! ## C5: penalty accrual when funds are insufficient -/

/-- **C5, amended.** When the funding account cannot cover payment plus
penalty, the sweep adds exactly `paymentAmount * penaltyRate / 100` to the
entry's accumulated penalty — computed from the scheduled amount only,
never from previously accrued penalty — charges nothing, records no
transaction, touches no credit, and leaves the entry's status (hence its
`pending` eligibility for the next sweep) unchanged; running the sweep step
twice therefore grows the accumulated penalty by exactly twice that
amount. The entry is *not* marked overdue. -/
theorem C5_insufficient_funds_accrues_penalty (penaltyRate : ℚ)
    (st : SchedState) (paymentID now : ℕ) (payment : PaymentSchedule)
    (credit : Credit) (account : Account)
    (hpay : st.payments paymentID = some payment)
    (hcred : st.credits payment.creditID = some credit)
    (hacc : st.accounts credit.accountID = some account)
    (hinsuf : account.balance
      < payment.paymentAmount + payment.paymentAmount * penaltyRate / 100)
    (helig : isOverdueEligible st now paymentID = true) :
    ∃ st', schedulerProcessOverduePayment penaltyRate st paymentID payment
        now false false false = (none, st') ∧
      st'.payments paymentID = some { payment with penaltyAmount :=
        payment.penaltyAmount + payment.paymentAmount * penaltyRate / 100 } ∧
      st'.accounts = st.accounts ∧
      st'.credits = st.credits ∧
      st'.transactions = st.transactions ∧
      isOverdueEligible st' now paymentID = true ∧
      ((schedulerProcessOverduePayment penaltyRate st' paymentID
          { payment with penaltyAmount := payment.penaltyAmount +
            payment.paymentAmount * penaltyRate / 100 }
          now false false false).2.payments paymentID)
        = some { payment with penaltyAmount := payment.penaltyAmount +
            payment.paymentAmount * penaltyRate / 100 +
            payment.paymentAmount * penaltyRate / 100 } := by
  have hnot : ¬ (account.balance
      ≥ payment.paymentAmount + payment.paymentAmount * penaltyRate / 100) :=
    not_le.mpr hinsuf
  refine ⟨SchedState.mk st.accounts st.credits
    (setPayment st.payments paymentID { payment with penaltyAmount :=
      payment.penaltyAmount + payment.paymentAmount * penaltyRate / 100 })
    st.transactions, ?_, ?_, rfl, rfl, rfl, ?_, ?_⟩
  · simp only [schedulerProcessOverduePayment, hcred, hacc, increasePenalty]
    rw [if_neg hnot]
    rfl
  · simp [setPayment, hpay]
  · unfold isOverdueEligible at helig ⊢
    simp only [setPayment, hpay] at helig ⊢
    simpa using helig
  · simp only [schedulerProcessOverduePayment, hcred, hacc, increasePenalty]
    rw [if_neg (by simpa using hnot)]
    simp [setPayment, hpay]

/-- The overdue row shared by the C5 witness and counterexample: scheduled
payment 500, pending, due at instant 3, owned by credit 1. -/
def c5Payment : PaymentSchedule :=
  { creditID := 1, paymentNumber := 1, dueDate := 3, paymentAmount := 500,
    principalAmount := 400, interestAmount := 100, penaltyAmount := 0,
    remainingBalance := 5600, status := PaymentStatusPending,
    paidDate := none }

/-- The credit of `c5St`. -/
def c5Credit : Credit :=
  { id := 1, accountID := 1, amount := 6000, interestRate := 21,
    termMonths := 12, monthlyPayment := 500, remainingDebt := 5000,
    status := CreditStatusActive }

/-- The state shared by the C5 witness and counterexample: credit 1 funded
by account 1 whose balance 100 cannot cover 500 + 50. -/
def c5St : SchedState :=
  { accounts := fun i =>
      if i = 1 then some { balance := 100, status := "active" } else none,
    credits := fun i => if i = 1 then some c5Credit else none,
    payments := fun i => if i = 1 then some c5Payment else none,
    transactions := [] }

/-- Witness instantiating `C5_insufficient_funds_accrues_penalty` on
`c5St` with a 10% penalty rate (balance 100 < 500 + 50). -/
theorem C5_insufficient_funds_accrues_penalty_witness :
    c5St.payments 1 = some c5Payment ∧
    (100 : ℚ) < 500 + 500 * 10 / 100 ∧
    isOverdueEligible c5St 7 1 = true ∧
    ∃ st', schedulerProcessOverduePayment 10 c5St 1 c5Payment 7
        false false false = (none, st') ∧
      st'.payments 1 = some { c5Payment with penaltyAmount :=
        c5Payment.penaltyAmount + c5Payment.paymentAmount * 10 / 100 } ∧
      st'.accounts = c5St.accounts ∧
      isOverdueEligible st' 7 1 = true := by
  have helig : isOverdueEligible c5St 7 1 = true := by
    simp [isOverdueEligible, c5St, c5Payment, c5Credit,
      PaymentStatusPending, CreditStatusActive]
  refine ⟨rfl, by norm_num, helig, ?_⟩
  obtain ⟨st', h1, h2, h3, -, -, h6, -⟩ :=
    C5_insufficient_funds_accrues_penalty 10 c5St 1 7 c5Payment c5Credit
      (Account.mk 100 "active") rfl rfl rfl
      (by norm_num [c5Payment]) helig
  exact ⟨st', h1, by simpa [c5Payment] using h2, h3, h6⟩

/-- **C5, counterexample.** After a sweep that cannot settle the entry, the
row's status is still `pending`: the code never marks it `overdue`,
contrary to the claim's "marks the entry overdue". -/
theorem C5_counterexample :
    (schedulerProcessOverduePayment 10 c5St 1 c5Payment 7 false false
        false).2.payments 1
      = some (PaymentSchedule.mk 1 1 3 500 400 100 50 5600
          PaymentStatusPending none) ∧
    PaymentStatusPending ≠ PaymentStatusOverdue := by
  constructor
  · norm_num [schedulerProcessOverduePayment, increasePenalty, c5St,
      c5Payment, c5Credit, setPayment]
  · decide

/-! ## C8: (non-)atomicity of one settlement -/

/-- The schedule row as `processPaymentDeduction` rewrites it when its
second write succeeds: paid, timestamped, penalty accumulated. -/
def settledRow (payment : PaymentSchedule) (penaltyAmount : ℚ) (now : ℕ) :
    PaymentSchedule :=
  { payment with
      status := PaymentStatusPaid
      paidDate := some now
      penaltyAmount := payment.penaltyAmount + penaltyAmount }

/-- **C8, amended.** One settlement is three separate writes, not one
atomic unit: if the *first* write (the balance update) fails, no state
changes at all; but if a later write fails, every earlier write persists —
a schedule-row-update failure leaves the balance already debited, and a
transaction-insert failure leaves both the debit and the rewritten schedule
row in place. The credit row is untouched in every case. -/
theorem C8_settlement_not_atomic (st : SchedState) (accountID : ℕ)
    (account : Account) (paymentID : ℕ) (payment : PaymentSchedule)
    (penaltyAmount totalAmount : ℚ) (now : ℕ) (failPay failTx : Bool) :
    processPaymentDeduction st accountID account paymentID payment
        penaltyAmount totalAmount now true failPay failTx
      = (some .updateBalanceFailed, st) ∧
    processPaymentDeduction st accountID account paymentID payment
        penaltyAmount totalAmount now false true failTx
      = (some .updatePaymentFailed,
          SchedState.mk
            (updateRow st.accounts accountID
              (fun _ => account.balance - totalAmount))
            st.credits st.payments st.transactions) ∧
    processPaymentDeduction st accountID account paymentID payment
        penaltyAmount totalAmount now false false true
      = (some .createTransactionFailed,
          SchedState.mk
            (updateRow st.accounts accountID
              (fun _ => account.balance - totalAmount))
            st.credits
            (setPayment st.payments paymentID
              (settledRow payment penaltyAmount now))
            st.transactions) :=
  ⟨rfl, rfl, rfl⟩

/-- The overdue row of the C8 counterexample. -/
def c8Payment : PaymentSchedule :=
  { creditID := 2, paymentNumber := 1, dueDate := 2, paymentAmount := 500,
    principalAmount := 450, interestAmount := 50, penaltyAmount := 0,
    remainingBalance := 2500, status := PaymentStatusPending,
    paidDate := none }

/-- The credit of `c8St`. -/
def c8Credit : Credit :=
  { id := 2, accountID := 3, amount := 3000, interestRate := 21,
    termMonths := 6, monthlyPayment := 500, remainingDebt := 2000,
    status := CreditStatusActive }

/-- The state of the C8 counterexample: the funding account 3 holds 1000,
enough for payment 500 plus penalty 50. -/
def c8St : SchedState :=
  { accounts := fun i =>
      if i = 3 then some { balance := 1000, status := "active" } else none,
    credits := fun i => if i = 2 then some c8Credit else none,
    payments := fun i => if i = 8 then some c8Payment else none,
    transactions := [] }

/-- **C8, counterexample.** On a concrete state, injecting a failure into
the settlement's second write (the schedule-row update) leaves the funding
account already debited (1000 − 550 = 450): the settlement failed mid-way
yet the state is not what it was before the settlement started. -/
theorem C8_counterexample :
    (schedulerProcessOverduePayment 10 c8St 8 c8Payment 9 false true
        false).1 = some SchedError.updatePaymentFailed ∧
    (schedulerProcessOverduePayment 10 c8St 8 c8Payment 9 false true
        false).2.accounts 3 = some (Account.mk 450 "active") ∧
    c8St.accounts 3 = some (Account.mk 1000 "active") ∧
    (450 : ℚ) ≠ 1000 := by
  refine ⟨?_, ?_, by norm_num [c8St], by norm_num⟩ <;>
    norm_num [schedulerProcessOverduePayment, processPaymentDeduction,
      c8St, c8Payment, c8Credit, updateRow]

/-! ## Credit creation (creditService.CreateCredit) -/

/-- The state touched by `creditService.CreateCredit`: accounts, credits,
the batch-created schedule rows, and the transactions table. -/
structure CreditDB where
  accounts : ℕ → Option Account
  credits : ℕ → Option Credit
  schedules : List PaymentSchedule
  transactions : List Transaction

/-- Errors surfaced by credit creation. -/
inductive CreditError
  | invalidCreditAmount
  | invalidCreditTerm
  | invalidAccountID
  | accountNotFound
  | accountBlocked
  deriving Repr, DecidableEq

/-- `INSERT INTO credits ... RETURNING id`: the fresh row under the id the
database hands back. -/
def insertCredit (credits : ℕ → Option Credit) (i : ℕ) (c : Credit) :
    ℕ → Option Credit :=
  fun j => if j = i then some c else credits j

/-- The domain request `domain.CreateCreditRequest` (its `InterestRate`
field is ignored by `CreateCredit`, which always derives the rate). -/
structure CreateCreditRequest where
  accountID : ℕ
  amount : ℚ
  termMonths : ℕ
  interestRate : ℚ
  deriving Repr, DecidableEq

/-- `(*CreateCreditRequest).Validate`: amount positive, term in (0, 360],
account id positive (`≤ 0` on a Go `int` becomes `= 0` on `ℕ`). -/
def CreateCreditRequest.Validate (r : CreateCreditRequest) :
    Option CreditError :=
  if r.amount ≤ 0 then some .invalidCreditAmount
  else if r.termMonths = 0 ∨ r.termMonths > 360 then some .invalidCreditTerm
  else if r.accountID = 0 then some .invalidAccountID
  else none

/-- `creditService.CreateCredit`. `keyRate` is the outcome of
`cbrService.GetKeyRate` (timeouts, transport errors and malformed
responses all surface as `.error`); on any such failure the fixed fallback
base rate 16.0 is used instead and the failure is not returned. The bank
margin 5.0 is then added, the annuity payment computed, the credit row
persisted (id from the database), the schedule generated in one batch
(whose persistence error the source logs and swallows), the funding
account credited by the amount, and a disbursement transaction recorded
(creation failure likewise swallowed). -/
def CreateCredit (db : CreditDB) (req : CreateCreditRequest)
    (keyRate : Except Unit ℚ) (newCreditID : ℕ) :
    Except CreditError (Credit × CreditDB) :=
  match req.Validate with
  | some e => .error e
  | none =>
    match db.accounts req.accountID with
    | none => .error .accountNotFound
    | some account =>
      if account.status ≠ "active" then .error .accountBlocked
      else
        let baseRate : ℚ := match keyRate with
          | .error _ => 16
          | .ok r => r
        let creditRate := baseRate + 5
        let monthlyPayment :=
          CalculateAnnuityPayment req.amount creditRate req.termMonths
        let credit : Credit :=
          { id := newCreditID
            accountID := req.accountID
            amount := req.amount
            interestRate := creditRate
            termMonths := req.termMonths
            monthlyPayment := monthlyPayment
            remainingDebt := req.amount
            status := CreditStatusActive }
        let credits1 := insertCredit db.credits newCreditID credit
        let schedules1 := db.schedules ++ createPaymentSchedule credit
        let accounts1 := updateRow db.accounts req.accountID
          (fun _ => account.balance + req.amount)
        let record : Transaction :=
          { fromAccount := none, toAccount := some req.accountID,
            amount := req.amount, type := "credit", status := "completed" }
        .ok (credit, CreditDB.mk accounts1 credits1 schedules1
          (db.transactions ++ [record]))

/-! ## C7: rate-provider failure falls back, never blocks -/

/-- **C7.** For every state, every valid request on an existing active
account, and every failing rate lookup, `CreateCredit` succeeds — the
failure is not propagated — and the created credit carries the fixed
fallback base rate 16.0 plus the fixed bank margin 5.0. -/
theorem C7_rate_failure_falls_back (db : CreditDB)
    (req : CreateCreditRequest) (newCreditID : ℕ) (account : Account)
    (hval : req.Validate = none)
    (hacc : db.accounts req.accountID = some account)
    (hactive : account.status = "active") :
    ∃ credit db', CreateCredit db req (.error ()) newCreditID
        = .ok (credit, db') ∧
      credit.interestRate = 16 + 5 ∧
      credit.status = CreditStatusActive ∧
      credit.remainingDebt = req.amount := by
  simp only [CreateCredit, hval, hacc, hactive]
  norm_num

/-- Witness instantiating `C7_rate_failure_falls_back` on a concrete
state: a 100000.00 credit for 12 months on active account 1, with the
rate provider down. -/
theorem C7_rate_failure_falls_back_witness :
    (CreateCreditRequest.mk 1 100000 12 0).Validate = none ∧
    (CreditDB.mk (fun i => if i = 1 then some (Account.mk 500 "active")
        else none) (fun _ => none) [] []).accounts 1
      = some (Account.mk 500 "active") ∧
    ∃ credit db', CreateCredit
        (CreditDB.mk (fun i => if i = 1 then some (Account.mk 500 "active")
          else none) (fun _ => none) [] [])
        (CreateCreditRequest.mk 1 100000 12 0) (.error ()) 1
        = .ok (credit, db') ∧
      credit.interestRate = 16 + 5 := by
  have hval : (CreateCreditRequest.mk 1 100000 12 0).Validate = none := by
    norm_num [CreateCreditRequest.Validate]
  refine ⟨hval, rfl, ?_⟩
  obtain ⟨credit, db', h1, h2, -, -⟩ :=
    C7_rate_failure_falls_back
      (CreditDB.mk (fun i => if i = 1 then some (Account.mk 500 "active")
        else none) (fun _ => none) [] [])
      (CreateCreditRequest.mk 1 100000 12 0) 1 (Account.mk 500 "active")
      hval rfl rfl
  exact ⟨credit, db', h1, h2⟩

/-! ## C10: remaining-debt update clamps at zero -/

/-- **C10.** `UpdateRemainingDebt` never leaves a negative debt: the
result is always ≥ 0; whenever the subtraction reaches or crosses zero the
debt is set to exactly 0 and the status to `paid_off` (an overlarge payment
is silently clamped, not an error); and otherwise the debt is exactly the
difference and the status untouched. -/
theorem C10_remaining_debt_clamped (c : Credit) (p : ℚ) :
    0 ≤ (UpdateRemainingDebt c p).remainingDebt ∧
    (c.remainingDebt - p ≤ 0 →
      (UpdateRemainingDebt c p).remainingDebt = 0 ∧
      (UpdateRemainingDebt c p).status = CreditStatusPaidOff) ∧
    (0 < c.remainingDebt - p →
      (UpdateRemainingDebt c p).remainingDebt = c.remainingDebt - p ∧
      (UpdateRemainingDebt c p).status = c.status) := by
  simp only [UpdateRemainingDebt]
  split
  · next h =>
    exact ⟨le_refl 0, fun _ => ⟨rfl, rfl⟩, fun hc => absurd h (not_le.mpr hc)⟩
  · next h =>
    exact ⟨le_of_lt (not_le.mp h), fun hc => absurd hc h, fun _ => ⟨rfl, rfl⟩⟩

/-- Witness instantiating `C10_remaining_debt_clamped`: paying principal
700 against a remaining debt of 500 clamps the debt to exactly 0 and
transitions the credit to `paid_off`. -/
theorem C10_remaining_debt_clamped_witness :
    (Credit.mk 1 1 1000 10 12 100 500 CreditStatusActive).remainingDebt
        - 700 ≤ 0 ∧
    0 ≤ (UpdateRemainingDebt
        (Credit.mk 1 1 1000 10 12 100 500 CreditStatusActive)
        700).remainingDebt ∧
    (UpdateRemainingDebt (Credit.mk 1 1 1000 10 12 100 500
        CreditStatusActive) 700).remainingDebt = 0 ∧
    (UpdateRemainingDebt (Credit.mk 1 1 1000 10 12 100 500
        CreditStatusActive) 700).status = CreditStatusPaidOff := by
  refine ⟨by norm_num, (C10_remaining_debt_clamped _ 700).1, ?_⟩
  exact (C10_remaining_debt_clamped
    (Credit.mk 1 1 1000 10 12 100 500 CreditStatusActive) 700).2.1
    (by norm_num)

end BankApp
